import Mathlib

/-
Verification development for the self-healing-cache chart scripts
(visualize_metrics.py, generate_thesis_charts.py, generate_better_charts.py).
The scripts load JSON experiment records and compute simple aggregates
(sums, means, percentage improvements, MTTR from a time series, trapezoidal
area under a latency curve) before handing the numbers to a plotting
library.  All numeric values are modelled as rationals; Python exceptions
raised by the modelled code (ZeroDivisionError) are modelled as Option
results, with none standing for the raised exception.
-/

/-- A Sample Point of a variant's timeSeries:
requestNumber, hitRate, successRate, avgLatency. -/
structure SamplePoint where
  requestNumber : ℚ
  hitRate : ℚ
  successRate : ℚ
  avgLatency : ℚ
deriving DecidableEq, Repr

/-- Model of numpy.mean on a list: sum divided by length. -/
def np_mean (l : List ℚ) : ℚ := l.sum / l.length

/-- One step of the scan in calculate_mttr (visualize_metrics.py,
inner function of create_mttr_comparison).  State is the list of recorded
recovery times together with the open failure window's start request
number (none when no window is open).  A point opens a window when its
hitRate is below 0.90 and no window is open; otherwise, when a window is
open and hitRate is at least 0.95, it closes the window and records
requestNumber minus the window start. -/
def mttrStep : List ℚ × Option ℚ → SamplePoint → List ℚ × Option ℚ
  | (recs, none), p =>
      if p.hitRate < 9/10 then (recs, some p.requestNumber) else (recs, none)
  | (recs, some r), p =>
      if 95/100 ≤ p.hitRate then (recs ++ [p.requestNumber - r], none)
      else (recs, some r)

/-- calculate_mttr (visualize_metrics.py): scan the time series with
mttrStep starting from no recorded times and no open window; return the
mean of the recorded recovery times, or 0 when none were recorded. -/
def calculate_mttr (ts : List SamplePoint) : ℚ :=
  let recs := (ts.foldl mttrStep ([], none)).1
  if recs = [] then 0 else np_mean recs

/-- Spec-side description of the recovery-time samples, written from the
spec's words: scanning in order, a point with hitRate below 0.90 opens a
failure window only when no window is open; the first subsequent point
with hitRate at least 0.95 closes it, recording close minus open request
number as one sample. -/
def recoverySamples : List SamplePoint → Option ℚ → List ℚ
  | [], _ => []
  | p :: ts, none =>
      if p.hitRate < 9/10 then recoverySamples ts (some p.requestNumber)
      else recoverySamples ts none
  | p :: ts, some r =>
      if 95/100 ≤ p.hitRate then (p.requestNumber - r) :: recoverySamples ts none
      else recoverySamples ts (some r)

/-- Spec-side MTTR: arithmetic mean of all recovery-time samples, or 0
when no sample was recorded. -/
def mttr_spec (ts : List SamplePoint) : ℚ :=
  if recoverySamples ts none = [] then 0 else np_mean (recoverySamples ts none)

/-- Minimum element of a list (0 on the empty list, which never occurs at
use sites: the claims about it are stated for non-empty inputs). -/
def listMin : List ℚ → ℚ
  | [] => 0
  | [x] => x
  | x :: y :: xs => min x (listMin (y :: xs))

/-- Maximum element of a list (0 on the empty list). -/
def listMax : List ℚ → ℚ
  | [] => 0
  | [x] => x
  | x :: y :: xs => max x (listMax (y :: xs))

/-- Model of numpy.trapz with explicit x coordinates: sum of
(x2 - x1) * (y1 + y2) / 2 over consecutive pairs. -/
def np_trapz : List ℚ → List ℚ → ℚ
  | y1 :: y2 :: ys, x1 :: x2 :: xs =>
      (x2 - x1) * (y1 + y2) / 2 + np_trapz (y2 :: ys) (x2 :: xs)
  | _, _ => 0

/-- n evenly spaced values starting at x0 with step d. -/
def evenlySpaced (x0 d : ℚ) : ℕ → List ℚ
  | 0 => []
  | n + 1 => x0 :: evenlySpaced (x0 + d) d n

/-- A constant-latency time series: one Sample Point of latency L at each
given request number. -/
def constLatencySeries (L : ℚ) (xs : List ℚ) : List SamplePoint :=
  xs.map (fun x => ⟨x, 1, 1, L⟩)

/-- Latency column extracted from a time series
(create_latency_area_under_curve, visualize_metrics.py). -/
def extractLatency (ts : List SamplePoint) : List ℚ := ts.map (·.avgLatency)

/-- Request-number column extracted from a time series. -/
def extractReqs (ts : List SamplePoint) : List ℚ := ts.map (·.requestNumber)

/-- failedRequests counts of the three variants of one scenario
(generate_thesis_charts.py). -/
structure ScenarioErrors where
  baseline : ℤ
  selfHealing : ℤ
  selfHealingML : ℤ
deriving DecidableEq

/-- The guarded percentage-improvement expression, as written at the
ml-vs-self-healing site (create_improvement_chart line 123) and the
per-scenario rows of create_summary_table (lines 177-178):
(before - after) / before * 100 when 0 < before, else 0. -/
def pctImprovementGuarded (before after : ℚ) : ℚ :=
  if 0 < before then (before - after) / before * 100 else 0

/-- The unguarded percentage-improvement expression, as written at the
summed-failedRequests sites (create_improvement_chart lines 121-122 and
the TOTAL row of create_summary_table, lines 199-200): none models the
ZeroDivisionError Python raises when before is 0. -/
def pctImprovementUnguarded (before after : ℚ) : Option ℚ :=
  if before = 0 then none else some ((before - after) / before * 100)

/-- create_improvement_chart (generate_thesis_charts.py): sums the
failedRequests of each variant over all scenarios, then computes the
self-healing and ML improvements over baseline with unguarded division
and the ML-vs-self-healing improvement with the guarded expression.
Returns none when the baseline sum is 0 (ZeroDivisionError). -/
def improvementChartValues (scenarios : List ScenarioErrors) : Option (ℚ × ℚ × ℚ) :=
  let baseline_errors : ℚ := ((scenarios.map (·.baseline)).sum : ℤ)
  let sh_errors : ℚ := ((scenarios.map (·.selfHealing)).sum : ℤ)
  let ml_errors : ℚ := ((scenarios.map (·.selfHealingML)).sum : ℤ)
  match pctImprovementUnguarded baseline_errors sh_errors,
        pctImprovementUnguarded baseline_errors ml_errors with
  | some shImp, some mlImp =>
      some (shImp, mlImp, pctImprovementGuarded sh_errors ml_errors)
  | _, _ => none

/-- Per-scenario Winner column of create_summary_table (lines 180-182):
first 'ML' when ml_err is at most sh_err, otherwise 'Self-Healing', then
overridden to 'Tie' when the two are equal. -/
def scenarioWinner (ml_err sh_err : ℤ) : String :=
  let winner := if ml_err ≤ sh_err then "ML" else "Self-Healing"
  if ml_err = sh_err then "Tie" else winner

/-- Winner of the TOTAL row of create_summary_table (line 209): 'ML' when
the ML total is at most the self-healing total, no 'Tie' case. -/
def totalWinner (total_ml total_sh : ℤ) : String :=
  if total_ml ≤ total_sh then "ML" else "Self-Healing"

/-- One body row of create_summary_table (lines 172-192): scenario name,
guarded improvement percentages over baseline, and the Winner column. -/
def summaryRow (name : String) (sc : ScenarioErrors) : String × ℚ × ℚ × String :=
  (name,
   pctImprovementGuarded (sc.baseline : ℚ) (sc.selfHealing : ℚ),
   pctImprovementGuarded (sc.baseline : ℚ) (sc.selfHealingML : ℚ),
   scenarioWinner sc.selfHealingML sc.selfHealing)

/-- All body rows of the summary table. -/
def summaryRows (scenarios : List (String × ScenarioErrors)) :
    List (String × ℚ × ℚ × String) :=
  scenarios.map (fun e => summaryRow e.1 e.2)

/-- The TOTAL row of create_summary_table (lines 195-210): sums per
variant, unguarded improvement percentages (none models the
ZeroDivisionError when the baseline total is 0), and the total winner. -/
def summaryTotalRow (scenarios : List (String × ScenarioErrors)) :
    Option (ℤ × ℤ × ℤ × ℚ × ℚ × String) :=
  let total_b : ℤ := (scenarios.map (·.2.baseline)).sum
  let total_sh : ℤ := (scenarios.map (·.2.selfHealing)).sum
  let total_ml : ℤ := (scenarios.map (·.2.selfHealingML)).sum
  match pctImprovementUnguarded (total_b : ℚ) (total_sh : ℚ),
        pctImprovementUnguarded (total_b : ℚ) (total_ml : ℚ) with
  | some shImp, some mlImp =>
      some (total_b, total_sh, total_ml, shImp, mlImp, totalWinner total_ml total_sh)
  | _, _ => none

/-- The five trailing chart calls of visualize_metrics.main's single try
block, each modelled by whether it succeeds (true) or raises (false).
Returns the number of calls executed (a failing call counts as executed)
and the exception escaping the block, if any: the block stops at the
first failing call. -/
def runTryCharts : List Bool → ℕ × Option Unit
  | [] => (0, none)
  | a :: rest =>
      if a then
        let r := runTryCharts rest
        (r.1 + 1, r.2)
      else (1, some ())

/-- The tail of visualize_metrics.main: the try/except around the five
trailing chart calls catches any exception and logs it, and the
statements after the try block run in either case (second component true
means the final status prints are reached). -/
def mainTail (actions : List Bool) : ℕ × Bool :=
  match runTryCharts actions with
  | (n, none) => (n, true)
  | (n, some _) => (n, true)

/-- The error marker checked by load_experiment_data
(visualize_metrics.py line 32 and line 46). -/
def errorMarker : String := "\x7b\"error\""

/-- Whether the file content begins with the error marker. -/
def startsWithErrorMarker (s : String) : Bool :=
  errorMarker.toList.isPrefixOf s.toList

/-- The three fixed-name input files of load_experiment_data; none means
the file does not exist, some holds its content. -/
structure ResultsDir where
  experiments : Option String
  cacheStatistics : Option String
  mlTrainingData : Option String

/-- Load with the marker check (experiments.json, ml_training_data.json):
a missing file gives the empty value; content that is empty or begins
with the error marker also gives the empty value; otherwise the content
is parsed. -/
def loadGuarded {α : Type} (file : Option String) (parse : String → α) (empty : α) : α :=
  match file with
  | none => empty
  | some content =>
      if content ≠ "" ∧ startsWithErrorMarker content = false then parse content
      else empty

/-- Load without the marker check (cache_statistics.json): a missing file
gives the empty value; any existing content is parsed. -/
def loadUnguarded {α : Type} (file : Option String) (parse : String → α) (empty : α) : α :=
  match file with
  | none => empty
  | some content => parse content

/-- load_experiment_data (visualize_metrics.py lines 19-49), parametric
in the JSON parser of each file: experiments.json and
ml_training_data.json go through the guarded load, cache_statistics.json
through the unguarded one. -/
def load_experiment_data {α β γ : Type} (dir : ResultsDir)
    (parseExp : String → α) (emptyExp : α)
    (parseStats : String → β) (emptyStats : β)
    (parseML : String → γ) (emptyML : γ) : α × β × γ :=
  (loadGuarded dir.experiments parseExp emptyExp,
   loadUnguarded dir.cacheStatistics parseStats emptyStats,
   loadGuarded dir.mlTrainingData parseML emptyML)

/-- The three variants' time series of one scenario; a missing variant or
a missing timeSeries key appears as the empty list, matching the
.get(..., default) chain in the source. -/
structure ScenarioTS where
  baseline : List SamplePoint
  selfHealing : List SamplePoint
  selfHealingML : List SamplePoint
deriving DecidableEq

/-- The per-scenario step of create_mttr_comparison (visualize_metrics.py
lines 611-648): a scenario with any empty time series is skipped; the
three MTTR values are computed and the scenario is kept only when at
least one of them is positive. -/
def mttrRow (e : String × ScenarioTS) : Option (String × ℚ × ℚ × ℚ) :=
  if e.2.baseline = [] ∨ e.2.selfHealing = [] ∨ e.2.selfHealingML = [] then none
  else
    let b := calculate_mttr e.2.baseline
    let s := calculate_mttr e.2.selfHealing
    let m := calculate_mttr e.2.selfHealingML
    if 0 < b ∨ 0 < s ∨ 0 < m then some (e.1.replace "_" "\n", b, s, m) else none

/-- The rows accumulated by create_mttr_comparison's scenario loop. -/
def mttrRows (scenarios : List (String × ScenarioTS)) : List (String × ℚ × ℚ × ℚ) :=
  scenarios.filterMap mttrRow

/-- predictionAccuracy sub-object of a selfHealingML result. -/
structure PredAcc where
  f1Score : ℚ
  precision : ℚ
  «recall» : ℚ
  totalPredictions : ℚ
deriving DecidableEq

/-- The per-scenario step of the accuracy aggregation in
create_ml_learning_curves (visualize_metrics.py lines 355-362): a
scenario whose selfHealingML result lacks predictionAccuracy (none) is
skipped; otherwise its f1/precision/recall are scaled by 100 and kept
with the prediction count. -/
def mlAccRow (e : String × Option PredAcc) : Option (ℚ × ℚ × ℚ × ℚ) :=
  match e.2 with
  | none => none
  | some pa =>
      some (pa.f1Score * 100, pa.precision * 100, pa.«recall» * 100, pa.totalPredictions)

/-- The rows accumulated by create_ml_learning_curves's accuracy loop. -/
def mlAccRows (scenarios : List (String × Option PredAcc)) : List (ℚ × ℚ × ℚ × ℚ) :=
  scenarios.filterMap mlAccRow

/-- The fixed scenario list iterated by create_recovery_curves. -/
def stressScenarios : List String :=
  ["cascading_failure", "gradual_degradation", "recovery_stress_test", "cache_corruption"]

/-- One iteration of create_recovery_curves (visualize_metrics.py lines
531-595): a stress scenario absent from the record, or one of whose
variants has an empty time series, produces no chart; otherwise the
per-scenario output file is produced. -/
def recoveryChartFor (scenarios : List (String × ScenarioTS)) (name : String) :
    Option String :=
  match scenarios.lookup name with
  | none => none
  | some sc =>
      if sc.baseline = [] ∨ sc.selfHealing = [] ∨ sc.selfHealingML = [] then none
      else some ("charts/recovery_curve_" ++ name ++ ".png")

/-- The chart files produced by create_recovery_curves. -/
def recoveryCharts (scenarios : List (String × ScenarioTS)) : List String :=
  stressScenarios.filterMap (recoveryChartFor scenarios)

theorem foldl_mttrStep_eq (ts : List SamplePoint) :
    ∀ (recs : List ℚ) (fs : Option ℚ),
      (ts.foldl mttrStep (recs, fs)).1 = recs ++ recoverySamples ts fs := by
  induction ts with
  | nil => intro recs fs; simp [recoverySamples]
  | cons p ts ih =>
      intro recs fs
      cases fs with
      | none =>
          by_cases h : p.hitRate < 9/10 <;>
            simp [mttrStep, recoverySamples, h, ih]
      | some r =>
          by_cases h : 95/100 ≤ p.hitRate <;>
            simp [mttrStep, recoverySamples, h, ih]

/-- C1: calculate_mttr, applied to any time series in order, opens a
failure window at a point with hitRate below 0.90 only when no window is
open, closes the open window at the first subsequent point with hitRate
at least 0.95 recording the request-number difference as one sample, and
returns the mean of all recorded samples, or 0 when no sample was
recorded (including a window that never closed). -/
theorem C1_calculate_mttr_refines_spec (ts : List SamplePoint) :
    calculate_mttr ts = mttr_spec ts := by
  unfold calculate_mttr mttr_spec
  rw [foldl_mttrStep_eq ts [] none]
  simp

/-- C6: MTTR extraction on the series with (requestNumber, hitRate) pairs
(1, 0.99), (2, 0.85), (3, 0.80), (4, 0.96) returns 2: the window opens at
request 2 and closes at request 4. -/
theorem C6_mttr_example :
    calculate_mttr
      [⟨1, 99/100, 1, 1⟩, ⟨2, 85/100, 1, 1⟩, ⟨3, 80/100, 1, 1⟩,
       ⟨4, 96/100, 1, 1⟩] = 2 := by
  norm_num [calculate_mttr, List.foldl, mttrStep, np_mean]

theorem recoverySamples_nonneg :
    ∀ (ts : List SamplePoint) (fs : Option ℚ),
      List.Pairwise (fun p q => p.requestNumber ≤ q.requestNumber) ts →
      (∀ r, fs = some r → ∀ p ∈ ts, r ≤ p.requestNumber) →
      ∀ x ∈ recoverySamples ts fs, 0 ≤ x := by
  intro ts
  induction ts with
  | nil => intro fs _ _ x hx; simp [recoverySamples] at hx
  | cons p ts ih =>
      intro fs hpw hfs x hx
      rw [List.pairwise_cons] at hpw
      obtain ⟨hp, hpw'⟩ := hpw
      cases fs with
      | none =>
          by_cases h : p.hitRate < 9/10
          · rw [recoverySamples, if_pos h] at hx
            exact ih (some p.requestNumber) hpw'
              (fun r hr q hq => by cases hr; exact hp q hq) x hx
          · rw [recoverySamples, if_neg h] at hx
            exact ih none hpw' (fun r hr => by cases hr) x hx
      | some r =>
          have hr : ∀ q ∈ p :: ts, r ≤ q.requestNumber := hfs r rfl
          by_cases h : 95/100 ≤ p.hitRate
          · rw [recoverySamples, if_pos h] at hx
            rcases List.mem_cons.mp hx with h1 | h1
            · subst h1
              have := hr p (List.mem_cons_self p ts)
              linarith
            · exact ih none hpw' (fun r' hr' => by cases hr') x h1
          · rw [recoverySamples, if_neg h] at hx
            exact ih (some r) hpw'
              (fun r' hr' q hq => by cases hr'; exact hr q (List.mem_cons_of_mem p hq))
              x hx

/-- C9: for every time series whose requestNumber values are
non-decreasing, calculate_mttr returns a nonnegative value: every
recorded recovery-time sample is a later request number minus an earlier
one, so neither any sample nor the mean is negative. -/
theorem C9_calculate_mttr_nonneg (ts : List SamplePoint)
    (h : List.Pairwise (fun p q => p.requestNumber ≤ q.requestNumber) ts) :
    0 ≤ calculate_mttr ts := by
  unfold calculate_mttr
  rw [foldl_mttrStep_eq ts [] none]
  simp only [List.nil_append]
  split
  · exact le_refl 0
  · have hx : ∀ x ∈ recoverySamples ts none, 0 ≤ x :=
      recoverySamples_nonneg ts none h (fun r hr => by cases hr)
    exact div_nonneg (List.sum_nonneg hx) (Nat.cast_nonneg _)

/-- Witness for C9 at a concrete non-decreasing series. -/
theorem C9_witness :
    List.Pairwise (fun p q : SamplePoint => p.requestNumber ≤ q.requestNumber)
      [⟨1, 99/100, 1, 1⟩, ⟨2, 85/100, 1, 1⟩, ⟨4, 96/100, 1, 1⟩] ∧
      0 ≤ calculate_mttr
        [⟨1, 99/100, 1, 1⟩, ⟨2, 85/100, 1, 1⟩, ⟨4, 96/100, 1, 1⟩] := by
  have h : List.Pairwise (fun p q : SamplePoint => p.requestNumber ≤ q.requestNumber)
      [⟨1, 99/100, 1, 1⟩, ⟨2, 85/100, 1, 1⟩, ⟨4, 96/100, 1, 1⟩] := by
    norm_num [List.pairwise_cons]
  exact ⟨h, C9_calculate_mttr_nonneg _ h⟩

theorem listMin_le_mem (l : List ℚ) : ∀ x ∈ l, listMin l ≤ x := by
  induction l with
  | nil => intro x hx; cases hx
  | cons a l ih =>
      cases l with
      | nil =>
          intro x hx
          rcases List.mem_cons.mp hx with h | h
          · subst h; exact le_refl _
          · cases h
      | cons b l' =>
          intro x hx
          rcases List.mem_cons.mp hx with h | h
          · subst h; exact min_le_left _ _
          · exact le_trans (min_le_right _ _) (ih x h)

theorem le_listMax_mem (l : List ℚ) : ∀ x ∈ l, x ≤ listMax l := by
  induction l with
  | nil => intro x hx; cases hx
  | cons a l ih =>
      cases l with
      | nil =>
          intro x hx
          rcases List.mem_cons.mp hx with h | h
          · subst h; exact le_refl _
          · cases h
      | cons b l' =>
          intro x hx
          rcases List.mem_cons.mp hx with h | h
          · subst h; exact le_max_left _ _
          · exact le_trans (ih x h) (le_max_right _ _)

/-- C7: for every non-empty collection of per-scenario values, the
mean-reduce operation (np.mean, as used on named fractional fields in
create_combined_metrics_chart and create_comparison_bar_chart) returns a
value between the minimum and the maximum of the inputs. -/
theorem C7_mean_reduce_between (l : List ℚ) (hl : l ≠ []) :
    listMin l ≤ np_mean l ∧ np_mean l ≤ listMax l := by
  have hlen : 0 < (l.length : ℚ) := by
    have h := List.length_pos.mpr hl
    exact_mod_cast h
  constructor
  · have h := List.card_nsmul_le_sum l (listMin l) (listMin_le_mem l)
    rw [nsmul_eq_mul] at h
    unfold np_mean
    rw [le_div_iff₀ hlen]
    linarith
  · have h := List.sum_le_card_nsmul l (listMax l) (le_listMax_mem l)
    rw [nsmul_eq_mul] at h
    unfold np_mean
    rw [div_le_iff₀ hlen]
    linarith

/-- Witness for C7 on the concrete value list 1, 2, 6. -/
theorem C7_witness :
    ([1, 2, 6] : List ℚ) ≠ [] ∧
      listMin [1, 2, 6] ≤ np_mean [1, 2, 6] ∧
      np_mean [1, 2, 6] ≤ listMax [1, 2, 6] :=
  ⟨by simp, C7_mean_reduce_between [1, 2, 6] (by simp)⟩

theorem np_trapz_const (L : ℚ) :
    ∀ (n : ℕ) (x0 d : ℚ),
      np_trapz (List.replicate (n + 1) L) (evenlySpaced x0 d (n + 1)) = L * (n * d) := by
  intro n
  induction n with
  | zero => intro x0 d; simp [np_trapz, evenlySpaced]
  | succ m ih =>
      intro x0 d
      have step :
          np_trapz (List.replicate (m + 1 + 1) L) (evenlySpaced x0 d (m + 1 + 1)) =
            (x0 + d - x0) * (L + L) / 2 +
              np_trapz (List.replicate (m + 1) L) (evenlySpaced (x0 + d) d (m + 1)) := rfl
      rw [step, ih (x0 + d) d]
      push_cast
      ring

theorem evenlySpaced_length (d : ℚ) :
    ∀ (n : ℕ) (x0 : ℚ), (evenlySpaced x0 d n).length = n := by
  intro n
  induction n with
  | zero => intro x0; rfl
  | succ m ih => intro x0; simp [evenlySpaced, ih]

theorem listMin_evenlySpaced (d : ℚ) (hd : 0 ≤ d) :
    ∀ (n : ℕ) (x0 : ℚ), listMin (evenlySpaced x0 d (n + 1)) = x0 := by
  intro n
  induction n with
  | zero => intro x0; rfl
  | succ m ih =>
      intro x0
      have step :
          listMin (evenlySpaced x0 d (m + 1 + 1)) =
            min x0 (listMin (evenlySpaced (x0 + d) d (m + 1))) := rfl
      rw [step, ih (x0 + d)]
      exact min_eq_left (by linarith)

theorem listMax_evenlySpaced (d : ℚ) (hd : 0 ≤ d) :
    ∀ (n : ℕ) (x0 : ℚ), listMax (evenlySpaced x0 d (n + 1)) = x0 + n * d := by
  intro n
  induction n with
  | zero => intro x0; simp [evenlySpaced, listMax]
  | succ m ih =>
      intro x0
      have step :
          listMax (evenlySpaced x0 d (m + 1 + 1)) =
            max x0 (listMax (evenlySpaced (x0 + d) d (m + 1))) := rfl
      rw [step, ih (x0 + d)]
      have hmd : 0 ≤ (m : ℚ) * d := mul_nonneg (Nat.cast_nonneg m) hd
      rw [max_eq_right (by linarith)]
      push_cast
      ring

/-- C8: trapezoidal area under a constant latency series with value L
sampled at n evenly spaced request numbers (np.trapz over the extracted
avgLatency and requestNumber columns, as in
create_latency_area_under_curve) equals L times (max request number
minus min request number). -/
theorem C8_trapz_const_series (L x0 d : ℚ) (n : ℕ) (hn : 1 ≤ n) (hd : 0 ≤ d) :
    np_trapz (extractLatency (constLatencySeries L (evenlySpaced x0 d n)))
        (extractReqs (constLatencySeries L (evenlySpaced x0 d n))) =
      L * (listMax (evenlySpaced x0 d n) - listMin (evenlySpaced x0 d n)) := by
  obtain ⟨m, rfl⟩ : ∃ m, n = m + 1 := ⟨n - 1, by omega⟩
  have hlat :
      extractLatency (constLatencySeries L (evenlySpaced x0 d (m + 1))) =
        List.replicate (m + 1) L := by
    simp [extractLatency, constLatencySeries, List.map_map, Function.comp_def,
      List.map_const', evenlySpaced_length]
  have hreq :
      extractReqs (constLatencySeries L (evenlySpaced x0 d (m + 1))) =
        evenlySpaced x0 d (m + 1) := by
    simp [extractReqs, constLatencySeries, List.map_map, Function.comp_def]
  rw [hlat, hreq, np_trapz_const, listMin_evenlySpaced d hd, listMax_evenlySpaced d hd]
  ring

/-- Witness for C8: latency 5 over request numbers 0, 1, 2. -/
theorem C8_witness :
    1 ≤ 3 ∧ (0 : ℚ) ≤ 1 ∧
      np_trapz (extractLatency (constLatencySeries 5 (evenlySpaced 0 1 3)))
          (extractReqs (constLatencySeries 5 (evenlySpaced 0 1 3))) =
        5 * (listMax (evenlySpaced 0 1 3) - listMin (evenlySpaced 0 1 3)) :=
  ⟨by norm_num, by norm_num, C8_trapz_const_series 5 0 1 3 (by norm_num) (by norm_num)⟩

/-- Counterexample to C2 as stated: with a single scenario whose
failedRequests are all 0, the summed-failedRequests improvement
computations of create_improvement_chart and of the summary table's
TOTAL row divide by the zero baseline sum and raise ZeroDivisionError
(modelled as none) instead of returning 0; moreover the guarded sites
return 0 for every non-positive before, not only for before = 0 (for
before = -1, after = 1 the code yields 0 while the claimed formula
yields 200). -/
theorem C2_counterexample :
    improvementChartValues [⟨0, 0, 0⟩] = none ∧
      summaryTotalRow [("s", ⟨0, 0, 0⟩)] = none ∧
      pctImprovementGuarded (-1) 1 = 0 ∧
      ((-1 : ℚ) - 1) / (-1) * 100 = 200 := by
  refine ⟨?_, ?_, ?_, by norm_num⟩
  · norm_num [improvementChartValues, pctImprovementUnguarded]
  · norm_num [summaryTotalRow, pctImprovementUnguarded]
  · norm_num [pctImprovementGuarded]

/-- C2 (amended): the guarded percentage-improvement sites return
(before - after) / before * 100 when 0 < before and 0 otherwise
(including before = 0); the summed-failedRequests sites are unguarded:
they return the formula when before is nonzero and raise
ZeroDivisionError (none) when before is 0, so create_improvement_chart
fails exactly when the summed baseline failedRequests are 0. -/
theorem C2_percentage_improvement (before after : ℚ) :
    (0 < before → pctImprovementGuarded before after = (before - after) / before * 100) ∧
    pctImprovementGuarded 0 after = 0 ∧
    (before ≠ 0 →
      pctImprovementUnguarded before after = some ((before - after) / before * 100)) ∧
    pctImprovementUnguarded 0 after = none ∧
    (∀ scenarios : List ScenarioErrors,
      (improvementChartValues scenarios = none ↔ (scenarios.map (·.baseline)).sum = 0)) := by
  refine ⟨fun h => ?_, ?_, fun h => ?_, ?_, fun scenarios => ?_⟩
  · simp [pctImprovementGuarded, h]
  · simp [pctImprovementGuarded]
  · simp [pctImprovementUnguarded, h]
  · simp [pctImprovementUnguarded]
  · constructor
    · intro h
      by_contra hne
      have hb : (((scenarios.map (·.baseline)).sum : ℤ) : ℚ) ≠ 0 := fun hc =>
        hne (by exact_mod_cast hc)
      simp only [improvementChartValues, pctImprovementUnguarded, if_neg hb] at h
      exact Option.some_ne_none _ h
    · intro h
      have hb : (((scenarios.map (·.baseline)).sum : ℤ) : ℚ) = 0 := by exact_mod_cast h
      simp only [improvementChartValues, pctImprovementUnguarded, if_pos hb]

/-- Witness for C2 (amended) at concrete scalars. -/
theorem C2_witness :
    0 < (4 : ℚ) ∧ pctImprovementGuarded 4 1 = (4 - 1) / 4 * 100 ∧
      (2 : ℚ) ≠ 0 ∧ pctImprovementUnguarded 2 1 = some ((2 - 1) / 2 * 100) :=
  ⟨by norm_num, (C2_percentage_improvement 4 1).1 (by norm_num), by norm_num,
   (C2_percentage_improvement 2 1).2.2.1 (by norm_num)⟩

/-- C10: the per-scenario Winner column is 'Tie' exactly when the ML and
self-healing failedRequests are equal, 'ML' exactly when the ML count is
strictly smaller, and 'Self-Healing' otherwise; the TOTAL row's winner
is 'ML' exactly when the ML total is at most the self-healing total, so
a tie on the totals is labeled 'ML', not 'Tie'. -/
theorem C10_winner_columns (ml_err sh_err : ℤ) :
    (scenarioWinner ml_err sh_err = "Tie" ↔ ml_err = sh_err) ∧
    (scenarioWinner ml_err sh_err = "ML" ↔ ml_err < sh_err) ∧
    (scenarioWinner ml_err sh_err = "Self-Healing" ↔ sh_err < ml_err) ∧
    (totalWinner ml_err sh_err = "ML" ↔ ml_err ≤ sh_err) := by
  rcases lt_trichotomy ml_err sh_err with h | h | h
  · have h1 : scenarioWinner ml_err sh_err = "ML" := by
      simp [scenarioWinner, h.ne, h.le]
    have h2 : totalWinner ml_err sh_err = "ML" := by
      simp [totalWinner, h.le]
    rw [h1, h2]
    exact ⟨iff_of_false (by decide) h.ne, iff_of_true rfl h,
      iff_of_false (by decide) (not_lt.mpr h.le), iff_of_true rfl h.le⟩
  · have h1 : scenarioWinner ml_err sh_err = "Tie" := by
      simp [scenarioWinner, h]
    have h2 : totalWinner ml_err sh_err = "ML" := by
      simp [totalWinner, h.le]
    rw [h1, h2]
    exact ⟨iff_of_true rfl h, iff_of_false (by decide) (by simp [h]),
      iff_of_false (by decide) (by simp [h]), iff_of_true rfl h.le⟩
  · have h1 : scenarioWinner ml_err sh_err = "Self-Healing" := by
      simp [scenarioWinner, h.ne', not_le.mpr h]
    have h2 : totalWinner ml_err sh_err = "Self-Healing" := by
      simp [totalWinner, not_le.mpr h]
    rw [h1, h2]
    exact ⟨iff_of_false (by decide) h.ne', iff_of_false (by decide) (not_lt.mpr h.le),
      iff_of_true rfl h, iff_of_false (by decide) (not_le.mpr h)⟩

/-- Counterexample to C4 as stated: with the third of the five trailing
chart calls raising, the single try/except of main catches and logs the
exception and the process continues (second component true), but only 3
of the 5 chart calls are executed: the two calls after the failing one
are skipped, so execution does not continue with the remaining chart
calls. -/
theorem C4_counterexample :
    (mainTail [true, true, false, true, true]).1 = 3 ∧
      (mainTail [true, true, false, true, true]).1 ≠ 5 ∧
      (mainTail [true, true, false, true, true]).2 = true := by
  decide

theorem runTryCharts_first_failure (pre post : List Bool)
    (hpre : ∀ a ∈ pre, a = true) :
    runTryCharts (pre ++ false :: post) = (pre.length + 1, some ()) := by
  induction pre with
  | nil => simp [runTryCharts]
  | cons a pre ih =>
      have ha : a = true := hpre a (List.mem_cons_self a pre)
      subst ha
      have ih' := ih fun b hb => hpre b (List.mem_cons_of_mem _ hb)
      simp [runTryCharts, ih']

/-- C4 (amended): an unexpected exception raised by one of the five
trailing time-series chart calls is caught by the single top-level
try/except in main and logged with a stack trace, and execution
continues after the try block rather than aborting the process; but the
chart calls that follow the failing one inside the try block are
skipped, not executed. -/
theorem C4_tryblock_catches_and_skips (pre post : List Bool)
    (hpre : ∀ a ∈ pre, a = true) :
    mainTail (pre ++ false :: post) = (pre.length + 1, true) := by
  unfold mainTail
  rw [runTryCharts_first_failure pre post hpre]

/-- Witness for C4 (amended): failure at the third of five calls. -/
theorem C4_witness :
    (∀ a ∈ [true, true], a = true) ∧
      mainTail ([true, true] ++ false :: [true, true]) = (2 + 1, true) :=
  ⟨by decide, C4_tryblock_catches_and_skips [true, true] [true, true] (by decide)⟩

/-- Counterexample to C5 as stated: a cache_statistics.json whose content
begins with the error marker is parsed (json.load is called on it), not
skipped: with the identity-like parser the loaded value is the parsed
content, not the empty value none. -/
theorem C5_counterexample :
    (load_experiment_data ⟨none, some errorMarker, none⟩
        (fun s => some s) none (fun s => some s) none (fun s => some s) none).2.1 =
      some errorMarker ∧
      startsWithErrorMarker errorMarker = true := by
  constructor
  · rfl
  · decide

/-- C5 (amended): experiments.json and ml_training_data.json are treated
as empty when the file is missing and also when its content begins with
the error marker; cache_statistics.json is treated as empty only when
the file is missing — its content is parsed unconditionally, even when
it begins with the error marker. -/
theorem C5_loader_skips {α β γ : Type} (dir : ResultsDir)
    (pe : String → α) (ea : α) (ps : String → β) (eb : β) (pm : String → γ) (ec : γ) :
    (dir.experiments = none → (load_experiment_data dir pe ea ps eb pm ec).1 = ea) ∧
    (∀ c, dir.experiments = some c → startsWithErrorMarker c = true →
        (load_experiment_data dir pe ea ps eb pm ec).1 = ea) ∧
    (dir.mlTrainingData = none → (load_experiment_data dir pe ea ps eb pm ec).2.2 = ec) ∧
    (∀ c, dir.mlTrainingData = some c → startsWithErrorMarker c = true →
        (load_experiment_data dir pe ea ps eb pm ec).2.2 = ec) ∧
    (dir.cacheStatistics = none → (load_experiment_data dir pe ea ps eb pm ec).2.1 = eb) ∧
    (∀ c, dir.cacheStatistics = some c →
        (load_experiment_data dir pe ea ps eb pm ec).2.1 = ps c) := by
  refine ⟨fun h => ?_, fun c hc hm => ?_, fun h => ?_, fun c hc hm => ?_,
    fun h => ?_, fun c hc => ?_⟩ <;>
    simp [load_experiment_data, loadGuarded, loadUnguarded, *]

/-- Witness for C5 (amended): an error-marker experiments.json is
skipped, a missing cache_statistics.json is empty. -/
theorem C5_witness :
    (load_experiment_data ⟨some errorMarker, none, none⟩
        (fun s => some s) (none : Option String)
        (fun s => some s) (none : Option String)
        (fun s => some s) (none : Option String)).1 = none ∧
      (load_experiment_data ⟨some errorMarker, none, none⟩
          (fun s => some s) (none : Option String)
          (fun s => some s) (none : Option String)
          (fun s => some s) (none : Option String)).2.1 = none :=
  ⟨(C5_loader_skips ⟨some errorMarker, none, none⟩ _ _ _ _ _ _).2.1
      errorMarker rfl (by decide),
   (C5_loader_skips ⟨some errorMarker, none, none⟩ _ _ _ _ _ _).2.2.2.2.1 rfl⟩

theorem filterMap_skip {α β : Type} (f : α → Option β) (x : α) (hx : f x = none) :
    ∀ (pre post : List α), (pre ++ x :: post).filterMap f = (pre ++ post).filterMap f := by
  intro pre post
  simp [List.filterMap_append, List.filterMap_cons, hx]

theorem filterMap_filter_ne {α β : Type} [DecidableEq α] (f : α → Option β) (a : α)
    (hf : f a = none) :
    ∀ l : List α, l.filterMap f = (l.filter (fun x => x ≠ a)).filterMap f := by
  intro l
  induction l with
  | nil => rfl
  | cons x l ih =>
      by_cases hx : x = a
      · subst hx
        simp [List.filterMap_cons, List.filter_cons, hf, ih]
      · simp [List.filterMap_cons, List.filter_cons, hx, ih]

/-- C3: a scenario missing an expected key is skipped for the affected
chart and the aggregation continues over the remaining scenarios with no
fatal error: (1) create_mttr_comparison drops a scenario any of whose
variants lacks a timeSeries, leaving the other scenarios' rows
unchanged; (2) the accuracy aggregation of create_ml_learning_curves
drops a scenario whose selfHealingML lacks predictionAccuracy; (3)
create_recovery_curves produces the same charts as if a stress scenario
that is absent or lacks a timeSeries were not iterated at all. -/
theorem C3_missing_key_skips :
    (∀ (pre post : List (String × ScenarioTS)) (n : String) (bad : ScenarioTS),
        bad.baseline = [] ∨ bad.selfHealing = [] ∨ bad.selfHealingML = [] →
        mttrRows (pre ++ (n, bad) :: post) = mttrRows (pre ++ post)) ∧
    (∀ (pre post : List (String × Option PredAcc)) (n : String),
        mlAccRows (pre ++ (n, none) :: post) = mlAccRows (pre ++ post)) ∧
    (∀ (scenarios : List (String × ScenarioTS)) (name : String),
        recoveryChartFor scenarios name = none →
        recoveryCharts scenarios =
          (stressScenarios.filter (fun s => s ≠ name)).filterMap
            (recoveryChartFor scenarios)) := by
  refine ⟨?_, ?_, ?_⟩
  · intro pre post n bad hbad
    have hnone : mttrRow (n, bad) = none := by
      rcases hbad with h | h | h <;> simp [mttrRow, h]
    exact filterMap_skip _ _ hnone pre post
  · intro pre post n
    exact filterMap_skip _ _ rfl pre post
  · intro scenarios name h
    exact filterMap_filter_ne _ _ h stressScenarios

/-- Witness for C3 at concrete scenario records. -/
theorem C3_witness :
    mttrRows [("a", ⟨[], [⟨1, 1, 1, 1⟩], [⟨1, 1, 1, 1⟩]⟩)] = mttrRows [] ∧
      mlAccRows [("a", none)] = mlAccRows [] ∧
      recoveryCharts [] =
        (stressScenarios.filter (fun s => s ≠ "cascading_failure")).filterMap
          (recoveryChartFor []) :=
  ⟨C3_missing_key_skips.1 [] [] "a" ⟨[], [⟨1, 1, 1, 1⟩], [⟨1, 1, 1, 1⟩]⟩ (Or.inl rfl),
   C3_missing_key_skips.2.1 [] [] "a",
   C3_missing_key_skips.2.2 [] "cascading_failure" rfl⟩
